import Mathlib

/-!
Verification of the azer-backend-common authorization core against its
natural-language specification.

The Tortoise-ORM entities of `azer_common/models/` are shallowly embedded as
Lean structures, and the engine's operations as pure functions over an explicit
`Store` value.  Conventions used throughout, fixed once here:

* Timestamps (`DatetimeField`) are modelled as `Int`; `utc_now()` becomes an
  explicit `now : Int` argument of each operation that calls it.  Nullable
  columns become `Option _`.  Primary keys and foreign keys are `Nat`.
* `created_at` / `updated_at` / `deleted_at` are written by the code but never
  read by any modelled operation, so they are omitted from the row structures.
  JSON payload columns (`metadata`, `meta`) are likewise omitted.
* `BaseModel` (azer_common/models/base.py) gives every row `is_deleted`.
  `Model.objects` is the `SoftDeleteManager` whose `get_queryset` adds
  `filter(is_deleted=False)`; queries written `X.objects.filter(...)` in the
  source therefore carry an `is_deleted = false` conjunct here.  Bare
  `cls.filter(...)` goes through Tortoise's default `Meta.manager` (the repo
  never sets one), which applies no implicit filter, so those queries range
  over all rows including soft-deleted ones.
* Tortoise raises `FieldError` when a filter/update keyword does not name a
  column of the model; a Python call with an unexpected keyword argument
  raises `TypeError`.  Both are modelled by `OrmErr` values: a query whose
  keyword set is checked against the model's column list errors out exactly
  when the source would.
* A failing operation is an `Except.error`; the transactional write operations
  return the whole post-state `Store` on success, so an error result leaves
  the caller's store untouched (rollback).
-/

namespace Azer

/-- Row of `azer_role_permission` (azer_common/models/relations/role_permission.py).
Columns kept: all that some modelled operation reads or writes.  Note the model
has `is_active` — not `is_granted` — and no `tenant` column. -/
structure RolePermission where
  id : Nat
  role_id : Nat
  permission_id : Nat
  granted_at : Int
  is_active : Bool
  revoked_at : Option Int
  revoked_by_id : Option Nat
  effective_from : Option Int
  effective_to : Option Int
  reason : Option String
  is_deleted : Bool
deriving Repr, DecidableEq

/-- Row of `azer_user_role` (azer_common/models/relations/user_role.py).
The model has a single expiry column `expires_at`; there is no
`effective_from`/`effective_to` pair on this table. -/
structure UserRole where
  id : Nat
  user_id : Nat
  role_id : Nat
  tenant_id : Nat
  is_assigned : Bool
  expires_at : Option Int
  is_deleted : Bool
deriving Repr, DecidableEq

/-- Row of `azer_tenant_user` (azer_common/models/relations/tenant_user.py). -/
structure TenantUser where
  id : Nat
  tenant_id : Nat
  user_id : Nat
  is_primary : Bool
  is_assigned : Bool
  expired_at : Option Int
  is_deleted : Bool
deriving Repr, DecidableEq

/-- Row of `azer_role` (azer_common/models/role/model.py). -/
structure Role where
  id : Nat
  code : String
  tenant_id : Nat
  is_system : Bool
  is_default : Bool
  is_enabled : Bool
  level : Int
  parent_id : Option Nat
  is_deleted : Bool
deriving Repr, DecidableEq

/-- Row of `azer_tenant` (azer_common/models/tenant/model.py); only the columns
the modelled operations consult. -/
structure Tenant where
  id : Nat
  is_enabled : Bool
  is_deleted : Bool
deriving Repr, DecidableEq

/-- Row of `azer_user` (azer_common/models/user/model.py); only the columns the
modelled operations consult. -/
structure User where
  id : Nat
  is_deleted : Bool
deriving Repr, DecidableEq

/-- The relational store: one list per table. -/
structure Store where
  tenants : List Tenant
  users : List User
  roles : List Role
  rolePermissions : List RolePermission
  userRoles : List UserRole
  tenantUsers : List TenantUser
deriving Repr, DecidableEq

/-! ### Temporal validity (spec §4.2, claim C2) -/

/-- Embeds `RolePermission.is_effective` (role_permission.py lines 89–115), with the
`check_time` argument made explicit.  The method tests `is_active`,
`revoked_at`, and the two window bounds — it does not consult `is_deleted`. -/
def RolePermission.is_effective (rp : RolePermission) (check_time : Int) : Bool :=
  if !rp.is_active then false
  else if rp.revoked_at.isSome then false
  else if rp.effective_from.any (fun f => decide (check_time < f)) then false
  else if rp.effective_to.any (fun t => decide (t ≤ check_time)) then false
  else true

/-- Embeds `UserRole.is_expired` (user_role.py lines 136–140): `utc_now() >= expires_at`,
with `utc_now()` passed in as `now`. -/
def UserRole.is_expired (ur : UserRole) (now : Int) : Bool :=
  ur.expires_at.any (fun e => decide (e ≤ now))

/-- Embeds `UserRole.is_valid` (user_role.py lines 142–144). -/
def UserRole.is_valid (ur : UserRole) (now : Int) : Bool :=
  ur.is_assigned && !ur.is_expired now && !ur.is_deleted

/-! ### Claim C2 -/

/-- Concrete `RolePermission` row refuting C2 as stated: soft-deleted yet
still reported effective by `is_effective`. -/
def c2DeletedRow : RolePermission :=
  { id := 1, role_id := 1, permission_id := 1, granted_at := 0,
    is_active := true, revoked_at := none, revoked_by_id := none,
    effective_from := some 0, effective_to := some 10, reason := none,
    is_deleted := true }

/-- C2 counterexample: the claim says a row is effective at `T` only if it "is
not soft-deleted", but `RolePermission.is_effective` never consults
`is_deleted`: this soft-deleted row is reported effective at T = 5. -/
theorem c2_softdeleted_row_reported_effective :
    c2DeletedRow.is_deleted = true ∧ c2DeletedRow.is_effective 5 = true := by
  decide

/-- C2 as amended.  A `RolePermission` row is effective at `T` iff `is_active`
is true, `revoked_at` is null, and `T` lies in the half-open window
`[effective_from, effective_to)` with null bounds unbounded — soft deletion is
not consulted.  A `UserRole` row is valid at `now` iff `is_assigned` is true,
the row is not soft-deleted, and `now` lies in the half-open window
`(-∞, expires_at)` (the table has no lower bound column).  In both cases the
row stops being effective exactly at the right endpoint. -/
theorem c2_half_open_window_characterisation :
    (∀ (rp : RolePermission) (t : Int),
      rp.is_effective t = true ↔
        (rp.is_active = true ∧ rp.revoked_at = none ∧
          (∀ f, rp.effective_from = some f → f ≤ t) ∧
          (∀ e, rp.effective_to = some e → t < e))) ∧
    (∀ (ur : UserRole) (now : Int),
      ur.is_valid now = true ↔
        (ur.is_assigned = true ∧ ur.is_deleted = false ∧
          (∀ e, ur.expires_at = some e → now < e))) := by
  constructor
  · intro rp t
    unfold RolePermission.is_effective
    rcases rp with ⟨_, _, _, _, a, r, _, f, e, _, _⟩
    rcases a <;> rcases r <;> rcases f <;> rcases e <;>
      simp +decide [Option.any]
  · intro ur now
    unfold UserRole.is_valid UserRole.is_expired
    rcases ur with ⟨_, _, _, _, a, e, d⟩
    rcases a <;> rcases d <;> rcases e <;> simp +decide [Option.any]

/-- C2 witness: the amended characterisation evaluated at the concrete row —
the declarative half-open-window conditions hold at T = 5, so the row is
reported effective. -/
theorem c2_half_open_window_characterisation_witness :
    c2DeletedRow.is_effective 5 = true :=
  (c2_half_open_window_characterisation.1 c2DeletedRow 5).mpr
    ⟨rfl, rfl,
     (by intro f hf
         simp only [c2DeletedRow, Option.some.injEq] at hf
         subst hf
         decide),
     (by intro e he
         simp only [c2DeletedRow, Option.some.injEq] at he
         subst he
         decide)⟩

/-! ### Errors

Python exceptions and store-level failures surfaced by the modelled
operations.  Message strings are dropped; the constructor records the kind. -/

/-- Error kinds raised by the embedded operations. -/
inductive OrmErr where
  /-- Python `ValueError` raised by an explicit validation / conflict check. -/
  | valueError
  /-- Error `DoesNotExist` from `.get()` on an empty queryset. -/
  | doesNotExist
  /-- Store unique-constraint violation on INSERT (`unique_together`). -/
  | integrityError
  /-- Tortoise `FieldError`: a filter/update keyword that names no column. -/
  | unknownFilterParam (field : String)
  /-- Python `TypeError`: keyword argument not accepted by the callee. -/
  | unexpectedKeywordArgument (kw : String)
  /-- Python `AttributeError` (e.g. `normalize_datetime` applied to an int). -/
  | attributeError
  /-- Python `PermissionError` from the audit-log immutability guards. -/
  | permissionError
  /-- Tortoise `MultipleObjectsReturned` from `.get()` / `get_or_create`. -/
  | multipleObjectsReturned
deriving Repr, DecidableEq

/-! ### Grant lifecycle (spec §4.2, claim C3) -/

/-- Embeds `RolePermission.validate` (role_permission.py lines 568–592): window sanity
and revocation consistency, checked by `save` before every persist. -/
def RolePermission.validate (rp : RolePermission) : Except OrmErr Unit :=
  if rp.effective_from.any (fun f => rp.effective_to.any (fun t => decide (t ≤ f))) then
    .error .valueError
  else if rp.revoked_at.isSome && rp.is_active then .error .valueError
  else if rp.revoked_at.any (fun r => decide (r < rp.granted_at)) then .error .valueError
  else .ok ()

/-- Filter of the duplicate-grant check in `RolePermission.grant`
(role_permission.py lines 274–283): active, unrevoked, and currently effective
at `utc_now()`.  It is a bare `cls.filter`, so soft-deleted rows are included,
and a grant whose window lies wholly in the future does not match. -/
def rpGrantExistingFilter (role_id permission_id : Nat) (now : Int)
    (rp : RolePermission) : Bool :=
  rp.role_id == role_id && rp.permission_id == permission_id &&
  rp.is_active && rp.revoked_at.isNone &&
  rp.effective_from.all (fun f => decide (f ≤ now)) &&
  rp.effective_to.all (fun t => decide (now < t))

/-- Embeds `RolePermission.grant` (role_permission.py lines 239–301): explicit
duplicate check, then `save()` = `validate()` + INSERT.  The INSERT is subject
to the table's `unique_together ("role", "permission", "is_active")`
constraint, which the store enforces over all rows. -/
def RolePermission.grant (store : Store) (role_id permission_id : Nat)
    (effective_from effective_to : Option Int) (reason : Option String)
    (now : Int) (new_id : Nat) : Except OrmErr (Store × RolePermission) :=
  if (store.rolePermissions.find?
        (rpGrantExistingFilter role_id permission_id now)).isSome then
    .error .valueError
  else
    let rp : RolePermission :=
      { id := new_id, role_id := role_id, permission_id := permission_id,
        granted_at := now, is_active := true, revoked_at := none,
        revoked_by_id := none, effective_from := effective_from,
        effective_to := effective_to, reason := reason, is_deleted := false }
    match rp.validate with
    | .error e => .error e
    | .ok _ =>
      if store.rolePermissions.any (fun e =>
          e.role_id == role_id && e.permission_id == permission_id &&
          e.is_active == rp.is_active) then
        .error .integrityError
      else
        .ok ({ store with rolePermissions := store.rolePermissions ++ [rp] }, rp)

/-- Tenant ids of a user via the `User.tenants` many-to-many relation
(user/model.py lines 114–119), a plain join over the `azer_tenant_user`
through-table. -/
def userTenantIds (store : Store) (user_id : Nat) : List Nat :=
  (store.tenantUsers.filter (fun tu => tu.user_id == user_id)).map (·.tenant_id)

/-- Embeds `UserRole.validate` (user_role.py lines 97–134): existence of user and of
an enabled role, tenant-range checks, and expiry/state consistency. -/
def UserRole.validate (store : Store) (ur : UserRole) (now : Int) :
    Except OrmErr Unit :=
  if !(store.users.any (fun u => u.id == ur.user_id && !u.is_deleted)) then
    .error .valueError
  else if !(store.roles.any (fun r =>
      r.id == ur.role_id && !r.is_deleted && r.is_enabled)) then
    .error .valueError
  else
    match store.roles.find? (fun r => r.id == ur.role_id) with
    | none => .error .valueError
    | some role =>
      if !(userTenantIds store ur.user_id).contains role.tenant_id then
        .error .valueError
      else if ur.expires_at.any (fun e => decide (e ≤ now)) then .error .valueError
      else if ur.is_assigned && ur.is_expired now then .error .valueError
      else if !(userTenantIds store ur.user_id).contains ur.tenant_id then
        .error .valueError
      else .ok ()

/-- Filter of the duplicate check in `UserRole.grant_role` (user_role.py lines
180–188): assigned, not soft-deleted (the query goes through `objects`), and
unexpired at `utc_now()`. -/
def urGrantExistingFilter (user_id role_id : Nat) (now : Int)
    (ur : UserRole) : Bool :=
  ur.user_id == user_id && ur.role_id == role_id &&
  ur.is_assigned && !ur.is_deleted &&
  ur.expires_at.all (fun e => decide (now < e))

/-- Embeds `UserRole.grant_role` (user_role.py lines 147–206).  `expires_in_days` is
truthy-tested, so `some 0` behaves like `none`; the new row's tenant is the
role's tenant (`role_obj.tenant_id or user_obj.tenant_id` short-circuits on the
non-null role tenant).  `save()` runs `UserRole.validate` and then the INSERT
checked against `unique_together ("user", "role", "tenant", "is_deleted")`. -/
def UserRole.grant_role (store : Store) (user_id role_id : Nat)
    (expires_in_days : Option Int) (now : Int) (new_id : Nat) :
    Except OrmErr (Store × UserRole) :=
  match store.users.find? (fun u => u.id == user_id && !u.is_deleted) with
  | none => .error .valueError
  | some _ =>
  match store.roles.find? (fun r =>
      r.id == role_id && !r.is_deleted && r.is_enabled) with
  | none => .error .valueError
  | some role =>
  if !(userTenantIds store user_id).contains role.tenant_id then
    .error .valueError
  else if (store.userRoles.find? (urGrantExistingFilter user_id role_id now)).any
      (fun ex => ex.is_valid now) then
    .error .valueError
  else
    let ur : UserRole :=
      { id := new_id, user_id := user_id, role_id := role_id,
        tenant_id := role.tenant_id, is_assigned := true,
        expires_at := (match expires_in_days with
                       | none => none
                       | some 0 => none
                       | some d => some (now + d)),
        is_deleted := false }
    match UserRole.validate store ur now with
    | .error e => .error e
    | .ok _ =>
      if store.userRoles.any (fun e =>
          e.user_id == user_id && e.role_id == role_id &&
          e.tenant_id == ur.tenant_id && e.is_deleted == ur.is_deleted) then
        .error .integrityError
      else
        .ok ({ store with userRoles := store.userRoles ++ [ur] }, ur)

/-! ### Expiry sweep (spec §4.6, claim C7) -/

/-- Filter of `RolePermission.cleanup_expired` (role_permission.py lines
517–542): still active, unrevoked, bounded, and expired by `before_time`.
Bare `cls.filter` — no soft-deletion conjunct. -/
def rpExpiredFilter (before : Int) (rp : RolePermission) : Bool :=
  rp.is_active && rp.revoked_at.isNone &&
  rp.effective_to.any (fun t => decide (t ≤ before))

/-- Embeds `RolePermission.cleanup_expired`: bulk UPDATE of the matching rows to
inactive/revoked, returning the number of rows affected. -/
def RolePermission.cleanup_expired (store : Store) (before now : Int) :
    Store × Nat :=
  ({ store with rolePermissions := store.rolePermissions.map (fun rp =>
      if rpExpiredFilter before rp then
        { rp with is_active := false, revoked_at := some now,
                  reason := some "自动清理：权限已过期" }
      else rp) },
   store.rolePermissions.countP (rpExpiredFilter before))

/-- Filter of `UserRole.cleanup_expired` (user_role.py lines 492–513): goes
through `objects` and explicitly excludes soft-deleted rows; optional tenant
filter. -/
def urExpiredFilter (tenant_id : Option Nat) (before : Int) (ur : UserRole) :
    Bool :=
  ur.is_assigned && !ur.is_deleted &&
  ur.expires_at.any (fun t => decide (t ≤ before)) &&
  tenant_id.all (fun tid => ur.tenant_id == tid)

/-- Embeds `UserRole.cleanup_expired`: bulk UPDATE of the matching rows to
unassigned, returning the number of rows affected. -/
def UserRole.cleanup_expired (store : Store) (before : Int)
    (tenant_id : Option Nat) : Store × Nat :=
  ({ store with userRoles := store.userRoles.map (fun ur =>
      if urExpiredFilter tenant_id before ur then { ur with is_assigned := false }
      else ur) },
   store.userRoles.countP (urExpiredFilter tenant_id before))

/-! ### Tenant membership (spec §4.5, claims C8 and C10) -/

/-- Embeds `TenantUser.grant_user` (tenant_user.py lines 66–116).  Resolves tenant and
user through `objects.get`, runs `get_or_create` keyed on the non-deleted
(tenant, user) pair (`MultipleObjectsReturned` when more than one row
matches), and — when `is_primary` — marks the target row primary and clears
`is_primary` on the user's other non-deleted rows, excluding the target by
id.  A truthy `expires_in_days` reaches
`add_days(utc_now(), expires_in_days)`, which passes the int where
`normalize_datetime` expects a datetime and raises (`attributeError`).
First, the `get_or_create` lookup filter. -/
def tuGetOrCreateFilter (tenant_id user_id : Nat) (tu : TenantUser) : Bool :=
  tu.tenant_id == tenant_id && tu.user_id == user_id && !tu.is_deleted

/-- Marking of the target row, `tenant_user.is_primary = True` followed by
`save` (tenant_user.py lines 102–104). -/
def tuMarkPrimary (target : Nat) (tu : TenantUser) : TenantUser :=
  if tu.id == target then { tu with is_primary := true } else tu

/-- The bulk UPDATE clearing the user's other primary memberships
(tenant_user.py lines 107–114): `objects.filter(user, is_primary=True,
is_deleted=False).exclude(id=target).update(is_primary=False)`. -/
def tuClearOtherPrimary (user_id target : Nat) (tu : TenantUser) : TenantUser :=
  if tu.user_id == user_id && tu.is_primary && !tu.is_deleted &&
     !(tu.id == target) then
    { tu with is_primary := false }
  else tu

def TenantUser.grant_user (store : Store) (tenant_id user_id : Nat)
    (is_primary : Bool) (expires_in_days : Option Int) (new_id : Nat) :
    Except OrmErr (Store × Nat) :=
  match store.tenants.find? (fun t => t.id == tenant_id && !t.is_deleted) with
  | none => .error .doesNotExist
  | some _ =>
  match store.users.find? (fun u => u.id == user_id && !u.is_deleted) with
  | none => .error .doesNotExist
  | some _ =>
  match (match expires_in_days with
         | none => Except.ok (none : Option Int)
         | some 0 => Except.ok none
         | some _ => Except.error OrmErr.attributeError) with
  | .error e => .error e
  | .ok expired_at =>
  if 2 ≤ store.tenantUsers.countP (tuGetOrCreateFilter tenant_id user_id) then
    .error .multipleObjectsReturned
  else
  let step : Store × Nat :=
    match store.tenantUsers.find? (tuGetOrCreateFilter tenant_id user_id) with
    | some tu => (store, tu.id)
    | none =>
      let row : TenantUser :=
        { id := new_id, tenant_id := tenant_id, user_id := user_id,
          is_primary := is_primary, is_assigned := true,
          expired_at := expired_at, is_deleted := false }
      ({ store with tenantUsers := store.tenantUsers ++ [row] }, new_id)
  let store1 := step.1
  let target_id := step.2
  if is_primary then
    let store2 : Store := { store1 with
      tenantUsers := store1.tenantUsers.map (tuMarkPrimary target_id) }
    let store3 : Store := { store2 with
      tenantUsers := store2.tenantUsers.map
        (tuClearOtherPrimary user_id target_id) }
    .ok (store3, target_id)
  else
    .ok (store1, target_id)

/-- Filter of `TenantUser.revoke_user` (tenant_user.py lines 197–218): the
non-deleted membership rows of the (tenant, user) pair. -/
def tuRevokeFilter (tenant_id user_id : Nat) (tu : TenantUser) : Bool :=
  tu.tenant_id == tenant_id && tu.user_id == user_id && !tu.is_deleted

/-- Embeds `TenantUser.revoke_user`: bulk UPDATE setting `is_assigned = False` on the
matching rows — the update list does not include `is_primary` — returning
whether any row was matched. -/
def TenantUser.revoke_user (store : Store) (tenant_id user_id : Nat) :
    Store × Bool :=
  ({ store with tenantUsers := store.tenantUsers.map (fun tu =>
      if tuRevokeFilter tenant_id user_id tu then { tu with is_assigned := false }
      else tu) },
   decide (0 < store.tenantUsers.countP (tuRevokeFilter tenant_id user_id)))

/-! ### Role graph (spec §4.1, claims C4, C9, C1) -/

/-- Role-code format of `Role.validate` step 2:
`re.match(r'^[A-Z_][A-Z0-9_]{0,49}$', code)`. -/
def validRoleCode (s : String) : Bool :=
  match s.toList with
  | [] => false
  | c :: rest =>
    ((decide ('A' ≤ c) && decide (c ≤ 'Z')) || c == '_') &&
    rest.all (fun d =>
      (decide ('A' ≤ d) && decide (d ≤ 'Z')) ||
      (decide ('0' ≤ d) && decide (d ≤ '9')) || d == '_') &&
    decide (s.length ≤ 50)

/-- Parent lookup of `Role.validate` step 3 (model.py lines 196–200): the
candidate parent must live in the same tenant and not be soft-deleted. -/
def findParentRole (store : Store) (tid pid : Nat) : Option Role :=
  store.roles.find? (fun r => r.id == pid && r.tenant_id == tid && !r.is_deleted)

/-- One step of the cycle walk (model.py lines 228–232): load the next parent,
same tenant, not soft-deleted. -/
def nextParent (store : Store) (tid : Nat) (c : Role) : Option Role :=
  match c.parent_id with
  | none => none
  | some pid => findParentRole store tid pid

/-- The bounded cycle walk of `Role.validate` (model.py lines 216–236).
`fuel` is `max_depth - depth`; the source raises the depth error whenever the
loop completes all 20 iterations, even if the chain ends exactly there. -/
def inheritWalk (store : Store) (tid : Nat) :
    Nat → List Nat → Option Role → Except OrmErr Unit
  | 0, _, _ => .error .valueError
  | _ + 1, _, none => .ok ()
  | fuel + 1, visited, some c =>
    if c.id ∈ visited then .error .valueError
    else inheritWalk store tid fuel (c.id :: visited) (nextParent store tid c)

/-- Embeds `Role.validate` (model.py lines 171–260): tenant existence/enabledness,
code format, parent checks (existence, self-reference, tenant match, cycle
walk), system-role constraints, per-tenant default uniqueness, level sign. -/
def Role.validate (store : Store) (r : Role) : Except OrmErr Unit :=
  match store.tenants.find? (fun t =>
      t.id == r.tenant_id && !t.is_deleted && t.is_enabled) with
  | none => .error .valueError
  | some _ =>
  if !validRoleCode r.code then .error .valueError
  else
    let parentCheck : Except OrmErr Unit :=
      match r.parent_id with
      | none => .ok ()
      | some pid =>
        match findParentRole store r.tenant_id pid with
        | none => .error .valueError
        | some parent =>
          if parent.id == r.id then .error .valueError
          else if !(parent.tenant_id == r.tenant_id) then .error .valueError
          else inheritWalk store r.tenant_id 20 [r.id] (some parent)
    match parentCheck with
    | .error e => .error e
    | .ok _ =>
      if r.is_system && r.parent_id.isSome then .error .valueError
      else if r.is_system && r.is_default then .error .valueError
      else if r.is_default && store.roles.any (fun o =>
          o.is_default && o.tenant_id == r.tenant_id && !o.is_deleted &&
          !(o.id == r.id)) then
        .error .valueError
      else if decide (r.level < 0) then .error .valueError
      else .ok ()

/-- Row upsert used to persist a `Role.save`: replace the row with the same id,
or insert. -/
def upsertRole (l : List Role) (r : Role) : List Role :=
  if l.any (fun o => o.id == r.id) then
    l.map (fun o => if o.id == r.id then r else o)
  else l ++ [r]

/-- Embeds `Role.save` (model.py lines 117–120): validate, then persist. -/
def Role.save (store : Store) (r : Role) : Except OrmErr Store :=
  match Role.validate store r with
  | .error e => .error e
  | .ok _ => .ok { store with roles := upsertRole store.roles r }

/-- Names under which `azer_role_permission` can be addressed in a Tortoise
filter/update: its columns plus the model's relation field names. -/
def rolePermissionFilterable : List String :=
  ["id", "created_at", "updated_at", "is_deleted", "deleted_at", "meta",
   "role", "role_id", "permission", "permission_id",
   "granted_by", "granted_by_id", "granted_at", "is_active",
   "revoked_at", "revoked_by", "revoked_by_id",
   "effective_from", "effective_to", "reason", "metadata"]

/-- Keyword resolution of a query against `azer_role_permission`: Tortoise
raises `FieldError` on the first keyword that names no field of the model. -/
def resolveRolePermissionKwargs (kwargs : List String) : Except OrmErr Unit :=
  match kwargs.find? (fun k => !rolePermissionFilterable.contains k) with
  | some k => .error (.unknownFilterParam k)
  | none => .ok ()

/-- Embeds `Role.soft_delete` (model.py lines 122–169), a single transaction: mark the
role deleted (running `Role.validate` via `save`), bulk-revoke its `UserRole`
rows, bulk-revoke its `RolePermission` rows, detach children, disable.  The
`RolePermission` update filters and updates on `is_granted`, which is not a
field of that model, so its keyword resolution fails; the error aborts the
transaction and the pre-state store is kept (rollback). -/
def Role.soft_delete (store : Store) (r : Role) : Except OrmErr Store :=
  if r.is_system then .error .valueError
  else
    let r1 : Role := { r with is_deleted := true }
    match Role.save store r1 with
    | .error e => .error e
    | .ok store1 =>
      let store2 : Store := { store1 with
        userRoles := store1.userRoles.map (fun ur =>
          if ur.role_id == r.id && ur.is_assigned && !ur.is_deleted then
            { ur with is_assigned := false }
          else ur) }
      match resolveRolePermissionKwargs ["role_id", "is_granted", "is_deleted"] with
      | .error e => .error e
      | .ok _ =>
        let store3 : Store := { store2 with
          roles := store2.roles.map (fun c =>
            if c.parent_id == some r.id && !c.is_deleted then
              { c with parent_id := none }
            else c) }
        Role.save store3 { r1 with is_enabled := false }

/-- Stable insertion into a level-descending list; equal levels keep the
earlier element first, matching Python's stable
`sorted(key=lambda r: r.level, reverse=True)`. -/
def insertLevelDesc (x : Role) : List Role → List Role
  | [] => [x]
  | y :: ys =>
    if decide (x.level < y.level) then y :: insertLevelDesc x ys
    else x :: y :: ys

/-- Embeds `sorted(role_chain, key=lambda r: r.level, reverse=True)` of
`_get_role_inheritance_chain` (model.py line 571). -/
def sortByLevelDesc (l : List Role) : List Role :=
  l.foldr insertLevelDesc []

/-- Parent-collection loop of `_get_role_inheritance_chain` (model.py lines
550–568): follow `parent_id` through enabled, non-deleted, same-tenant roles,
stopping on a miss, a revisit, or the `batch_size` (100) cap. -/
def chainLoop (store : Store) (tid : Nat) :
    Nat → List Nat → Option Nat → List Role → List Role
  | _, _, none, acc => acc
  | 0, _, some _, acc => acc
  | fuel + 1, fetched, some pid, acc =>
    match store.roles.find? (fun ro =>
        ro.id == pid && ro.tenant_id == tid && ro.is_enabled && !ro.is_deleted) with
    | none => acc
    | some parent =>
      if parent.id ∈ fetched then acc
      else chainLoop store tid fuel (parent.id :: fetched) parent.parent_id
             (acc ++ [parent])

/-- Embeds `Role._get_role_inheritance_chain` (model.py lines 537–571): the role
itself plus its loaded ancestors, sorted by level descending. -/
def Role.inheritanceChain (store : Store) (r : Role) : List Role :=
  if r.parent_id.isNone then [r]
  else sortByLevelDesc (chainLoop store r.tenant_id 100 [r.id] r.parent_id [r])

/-- Embeds `Role.get_effective_permissions` (model.py lines 415–461).  After building
the inheritance chain it queries
`RolePermission.objects.filter(role_id__in=…, is_granted=True,
is_deleted=False, tenant_id=…)` plus window and role-state filters; the
keywords `is_granted` and `tenant_id` name no field of `azer_role_permission`,
so keyword resolution raises before any row is read.  The merge step (lines
450–461, highest level wins per permission id) is unreachable. -/
def Role.get_effective_permissions (store : Store) (r : Role)
    (check_time : Int) : Except OrmErr (List Nat) :=
  let role_chain := r.inheritanceChain store
  if role_chain.isEmpty then .ok []
  else
    match resolveRolePermissionKwargs
        ["role_id", "is_granted", "is_deleted", "tenant_id",
         "effective_from", "effective_to", "role"] with
    | .error e => .error e
    | .ok _ => .ok ((check_time, ([] : List Nat)).2)

/-- Parameter names accepted by the classmethod `RolePermission.has_permission`
(role_permission.py lines 386–417). -/
def rpHasPermissionParams : List String :=
  ["role_id", "permission_code", "check_time"]

/-- Resolution of a Python keyword call: `TypeError` on the first keyword the
callee does not accept. -/
def resolvePyKwargs (params kwargs : List String) : Except OrmErr Unit :=
  match kwargs.find? (fun k => !params.contains k) with
  | some k => .error (.unexpectedKeywordArgument k)
  | none => .ok ()

/-- Embeds `Role.has_permission` (model.py lines 463–488).  For each role of the
chain it calls `RolePermission.has_permission(role_id=…, permission_code=…,
check_time=…, tenant_id=…)`; the classmethod has no `tenant_id` parameter, so
the very first call raises `TypeError`. -/
def Role.has_permission (store : Store) (r : Role) (permission_code : String)
    (check_time : Int) : Except OrmErr Bool :=
  let role_chain := r.inheritanceChain store
  if role_chain.isEmpty then .ok false
  else
    match resolvePyKwargs rpHasPermissionParams
        ["role_id", "permission_code", "check_time", "tenant_id"] with
    | .error e => .error e
    | .ok _ => .ok ((permission_code, check_time, false).2.2)

/-! ### Audit recorder (spec §4.4, claims C5 and C6)

Python model classes are tokens (`ModelCls`, a string naming the class).  Two
distinct registries exist in the source: `_AUDIT_REGISTRY` in
models/audit/registry.py, written by `register_audit` /
`register_audit_manual`, and `_AUDIT_MODEL_REGISTRY` in
models/audit/__init__.py, read by the post-save signal handler in
models/audit/signals.py. -/

/-- Token standing for a Python model class. -/
abbrev ModelCls := String

/-- Audit model class synthesised by `_create_audit_model` for a business
type (registry.py lines 156–216); only its identity matters here. -/
def auditModelCls (business_type : String) : ModelCls :=
  business_type ++ "_audit"

/-- The caller-supplied operation context (context.py, `AuditContext`); only
the fields the handler branches on are kept, the snapshot payload is opaque. -/
structure AuditContext where
  business_type : String
  operation_type : String
deriving Repr, DecidableEq

/-- An audit row as persisted by `_create_audit_log`. -/
structure AuditRecord where
  business_id : Nat
  business_type : String
  operation_type : String
deriving Repr, DecidableEq

/-- The process-wide audit registries, as defined in the source. -/
structure AuditRegistryState where
  /-- registry.py `_AUDIT_REGISTRY`: business type ↦ (target model, audit model). -/
  auditRegistry : List (String × ModelCls × ModelCls)
  /-- registry.py `_MODEL_TO_BIZ_TYPE`: target model ↦ business type. -/
  modelToBizType : List (ModelCls × String)
  /-- audit/__init__.py `_AUDIT_MODEL_REGISTRY`: audit model ↦ business type. -/
  auditModelRegistry : List (ModelCls × String)
deriving Repr, DecidableEq

/-- The registries at process start: all three dicts are empty. -/
def emptyRegistries : AuditRegistryState :=
  { auditRegistry := [], modelToBizType := [], auditModelRegistry := [] }

/-- Business-type format check `validate_model_business_type`
(utils/validators.py lines 294–299): `^[a-z_]{3,32}$`. -/
def validBusinessType (s : String) : Bool :=
  s.toList.all (fun c => (decide ('a' ≤ c) && decide (c ≤ 'z')) || c == '_') &&
  decide (3 ≤ s.length) && decide (s.length ≤ 32)

/-- Embeds `register_audit` / `register_audit_manual` (registry.py lines 49–154):
validate the business type, reject a re-registered model or business type,
synthesise the audit model, bind the post-save signal, and write
`_AUDIT_REGISTRY` and `_MODEL_TO_BIZ_TYPE`.  `_AUDIT_MODEL_REGISTRY` — the
dict the signal handler reads — is not touched by any registration path. -/
def registerAudit (st : AuditRegistryState) (business_type : String)
    (target : ModelCls) : Except OrmErr AuditRegistryState :=
  if !validBusinessType business_type then .error .valueError
  else if st.modelToBizType.any (fun p => p.1 == target) then .error .valueError
  else if st.auditRegistry.any (fun p => p.1 == business_type) then
    .error .valueError
  else
    .ok { auditRegistry :=
            st.auditRegistry ++ [(business_type, target, auditModelCls business_type)],
          modelToBizType := st.modelToBizType ++ [(target, business_type)],
          auditModelRegistry := st.auditModelRegistry }

/-- Registries after a bootstrap sequence of registration calls
(business type, target model); a call that raises leaves the state as it was. -/
def runRegistrations (calls : List (String × ModelCls)) : AuditRegistryState :=
  calls.foldl (fun st c =>
    match registerAudit st c.1 c.2 with
    | .ok st2 => st2
    | .error _ => st) emptyRegistries

/-- Outcome of one signal delivery: audit rows persisted and warnings logged. -/
structure HandlerResult where
  records : List AuditRecord
  warnings : Nat
deriving Repr, DecidableEq

/-- Embeds `get_audit_model` as defined in signals.py (lines 90–117): scan
`_AUDIT_MODEL_REGISTRY` for the entry whose value carries `business_type`. -/
def getAuditModel (st : AuditRegistryState) (business_type : String) :
    Option ModelCls :=
  (st.auditModelRegistry.find? (fun p => p.2 == business_type)).map (·.1)

/-- Embeds `_create_audit_log` (signals.py lines 35–87): no context, or a context
whose business type does not match, logs one warning and persists nothing;
otherwise one `AuditRecord` is built from the context and persisted. -/
def createAuditLog (st : AuditRegistryState) (instance_id : Nat)
    (business_type : String) (ctx : Option AuditContext) : HandlerResult :=
  match ctx with
  | none => { records := [], warnings := 1 }
  | some c =>
    if !(c.business_type == business_type) then { records := [], warnings := 1 }
    else
      match getAuditModel st business_type with
      | none => { records := [], warnings := 0 }
      | some _ =>
        { records := [{ business_id := instance_id,
                        business_type := c.business_type,
                        operation_type := c.operation_type }],
          warnings := 0 }

/-- Embeds `_generic_audit_signal_handler` (signals.py lines 13–31), fired on
`post_save` of a registered model: look the *sender* up in
`_AUDIT_MODEL_REGISTRY`; on a miss log the "模型未注册审计" warning and skip,
otherwise delegate to `_create_audit_log`. -/
def genericAuditSignalHandler (st : AuditRegistryState) (sender : ModelCls)
    (instance_id : Nat) (ctx : Option AuditContext) : HandlerResult :=
  match st.auditModelRegistry.find? (fun p => p.1 == sender) with
  | none => { records := [], warnings := 1 }
  | some p => createAuditLog st instance_id p.2 ctx

/-! ### Audit immutability (claim C6) -/

/-- Persisted audit row (`BaseAuditLog`, audit/base.py); `saved_in_db` is
Tortoise's `_saved_in_db` instance flag. -/
structure AuditRow where
  id : Nat
  business_id : Nat
  business_type : String
  operation_type : String
  reason : Option String
  is_deleted : Bool
  saved_in_db : Bool
deriving Repr, DecidableEq

/-- Embeds `BaseAuditLog.save` (audit/base.py lines 50–53): a re-save of a row
already in the store raises `PermissionError`; a first save inserts. -/
def BaseAuditLog.save (table : List AuditRow) (row : AuditRow) :
    Except OrmErr (List AuditRow) :=
  if row.saved_in_db then .error .permissionError
  else .ok (table ++ [{ row with saved_in_db := true }])

/-- Embeds `BaseAuditLog.delete` (audit/base.py lines 56–57): always raises. -/
def BaseAuditLog.delete (_table : List AuditRow) (_row : AuditRow) :
    Except OrmErr (List AuditRow) :=
  .error .permissionError

/-- Embeds `BaseAuditLog.soft_delete` (audit/base.py lines 59–60): always raises. -/
def BaseAuditLog.soft_delete (_table : List AuditRow) (_row : AuditRow) :
    Except OrmErr (List AuditRow) :=
  .error .permissionError

/-- Direct store access: the storage port's bulk UPDATE (Tortoise
`QuerySet.update`, the primitive used throughout the repo, e.g.
`RolePermission.revoke_by_ids`).  It writes matching rows in place and calls
no model method; `BaseAuditLog.Meta` declares only indexes, so no store-level
constraint guards the audit table against it. -/
def auditTableBulkUpdate (table : List AuditRow) (cond : AuditRow → Bool)
    (upd : AuditRow → AuditRow) : List AuditRow × Nat :=
  (table.map (fun row => if cond row then upd row else row),
   table.countP cond)

/-! ### Helper lemmas -/

/-- The chain loop only ever appends to its accumulator. -/
theorem chainLoop_prefix (store : Store) (tid : Nat) :
    ∀ (fuel : Nat) (fetched : List Nat) (pid : Option Nat) (acc : List Role),
      ∃ rest, chainLoop store tid fuel fetched pid acc = acc ++ rest := by
  intro fuel
  induction fuel with
  | zero =>
    intro fetched pid acc
    cases pid <;> exact ⟨[], by simp [chainLoop]⟩
  | succ n ih =>
    intro fetched pid acc
    cases pid with
    | none => exact ⟨[], by simp [chainLoop]⟩
    | some p =>
      unfold chainLoop
      cases hf : store.roles.find? (fun ro =>
          ro.id == p && ro.tenant_id == tid && ro.is_enabled && !ro.is_deleted) with
      | none => exact ⟨[], by simp⟩
      | some parent =>
        by_cases hmem : parent.id ∈ fetched
        · exact ⟨[], by simp [hmem]⟩
        · obtain ⟨rest, hrest⟩ :=
            ih (parent.id :: fetched) parent.parent_id (acc ++ [parent])
          exact ⟨parent :: rest, by simp [hmem, hrest]⟩

/-- Stable insertion adds exactly one element. -/
theorem insertLevelDesc_length (x : Role) :
    ∀ l : List Role, (insertLevelDesc x l).length = l.length + 1 := by
  intro l
  induction l with
  | nil => rfl
  | cons y ys ih =>
    unfold insertLevelDesc
    by_cases h : x.level < y.level <;> simp [h, ih]

/-- The level sort preserves length. -/
theorem sortByLevelDesc_length (l : List Role) :
    (sortByLevelDesc l).length = l.length := by
  induction l with
  | nil => rfl
  | cons y ys ih => simp [sortByLevelDesc, List.foldr] at ih ⊢
                    rw [insertLevelDesc_length, ih]

/-- The inheritance chain always contains at least the role itself. -/
theorem inheritanceChain_ne_empty (store : Store) (r : Role) :
    (r.inheritanceChain store).isEmpty = false := by
  rw [List.isEmpty_eq_false_iff_exists_mem]
  unfold Role.inheritanceChain
  by_cases h : r.parent_id.isNone
  · exact ⟨r, by simp [h]⟩
  · simp only [h, if_false]
    have hlen : (sortByLevelDesc (chainLoop store r.tenant_id 100 [r.id]
        r.parent_id [r])).length ≠ 0 := by
      rw [sortByLevelDesc_length]
      obtain ⟨rest, hrest⟩ := chainLoop_prefix store r.tenant_id 100 [r.id]
        r.parent_id [r]
      simp [hrest]
    cases hc : sortByLevelDesc (chainLoop store r.tenant_id 100 [r.id]
        r.parent_id [r]) with
    | nil => simp [hc] at hlen
    | cons a l => exact ⟨a, by simp⟩

/-! ### Claim C1 -/

/-- C1 (code bug).  `Role.get_effective_permissions` and `Role.has_permission`
never compute the merged permission set: for every store, role and check time,
the former's `RolePermission` query names `is_granted` (and `tenant_id`),
which are not fields of `azer_role_permission`, so it raises `FieldError`, and
the latter forwards a `tenant_id=` keyword that the classmethod
`RolePermission.has_permission` does not accept, so it raises `TypeError`. -/
theorem c1_resolution_engine_always_raises :
    ∀ (store : Store) (r : Role) (code : String) (t : Int),
      Role.get_effective_permissions store r t =
        .error (.unknownFilterParam "is_granted") ∧
      Role.has_permission store r code t =
        .error (.unexpectedKeywordArgument "tenant_id") := by
  intro store r code t
  constructor
  · unfold Role.get_effective_permissions
    simp only [inheritanceChain_ne_empty, Bool.false_eq_true, if_false]
    rfl
  · unfold Role.has_permission
    simp only [inheritanceChain_ne_empty, Bool.false_eq_true, if_false]
    rfl

/-! ### Claim C9 -/

/-- C9 (code bug).  `Role.soft_delete` never completes: for every store and
role it returns an error — for a non-system role, the bulk revoke of the
role's `RolePermission` rows filters and updates on `is_granted`, which is not
a field of that model, so the transaction aborts and rolls back; the claimed
cascade (mark deleted and disabled, revoke grants, detach children) is never
persisted. -/
theorem c9_soft_delete_always_raises :
    ∀ (store : Store) (r : Role), ∃ e, Role.soft_delete store r = .error e := by
  intro store r
  unfold Role.soft_delete
  by_cases hs : r.is_system = true
  · exact ⟨.valueError, by rw [if_pos hs]⟩
  · rw [if_neg hs]
    cases hsave : Role.save store { r with is_deleted := true } with
    | error e => exact ⟨e, by simp only [hsave]⟩
    | ok store1 =>
      refine ⟨.unknownFilterParam "is_granted", ?_⟩
      simp only [hsave]
      rfl

/-! ### Claim C5 -/

/-- Registration writes `_AUDIT_REGISTRY` and `_MODEL_TO_BIZ_TYPE` but never
`_AUDIT_MODEL_REGISTRY`. -/
theorem registerAudit_auditModelRegistry (st st' : AuditRegistryState)
    (bt : String) (target : ModelCls)
    (h : registerAudit st bt target = .ok st') :
    st'.auditModelRegistry = st.auditModelRegistry := by
  unfold registerAudit at h
  split at h
  · exact absurd h (by simp)
  · split at h
    · exact absurd h (by simp)
    · split at h
      · exact absurd h (by simp)
      · cases h
        rfl

/-- After any bootstrap sequence, the registry the signal handler reads is
still empty. -/
theorem runRegistrations_handler_registry_empty (calls : List (String × ModelCls)) :
    (runRegistrations calls).auditModelRegistry = [] := by
  unfold runRegistrations
  have key : ∀ (cs : List (String × ModelCls)) (st : AuditRegistryState),
      st.auditModelRegistry = [] →
      (cs.foldl (fun st c =>
        match registerAudit st c.1 c.2 with
        | .ok st2 => st2
        | .error _ => st) st).auditModelRegistry = [] := by
    intro cs
    induction cs with
    | nil => intro st h; exact h
    | cons c rest ih =>
      intro st h
      simp only [List.foldl_cons]
      apply ih
      cases hr : registerAudit st c.1 c.2 with
      | ok st2 => rw [registerAudit_auditModelRegistry st st2 c.1 c.2 hr]; exact h
      | error e => exact h
  exact key calls emptyRegistries rfl

/-- C5 (code bug).  However the audit registration bootstrap is run —
whatever models are registered through `register_audit` /
`register_audit_manual`, and whatever operation context the caller has set,
matching business type included — a tracked mutation's post-save signal
persists zero audit records and logs exactly one warning, because the handler
looks the sender up in `_AUDIT_MODEL_REGISTRY`, a dict no registration path
ever populates (registration writes `_AUDIT_REGISTRY` in registry.py
instead). -/
theorem c5_tracked_mutation_never_audited :
    ∀ (calls : List (String × ModelCls)) (sender : ModelCls)
      (instance_id : Nat) (ctx : Option AuditContext),
      genericAuditSignalHandler (runRegistrations calls) sender instance_id ctx =
        { records := [], warnings := 1 } := by
  intro calls sender instance_id ctx
  unfold genericAuditSignalHandler
  rw [runRegistrations_handler_registry_empty]
  rfl

/-! ### Claim C6 -/

/-- A persisted audit row used in the C6 counterexample. -/
def c6Row : AuditRow :=
  { id := 1, business_id := 7, business_type := "role_permission",
    operation_type := "create", reason := none, is_deleted := false,
    saved_in_db := true }

/-- C6 counterexample: the claim says mutation of a persisted audit record is
"enforced at the store layer … even under direct store access", but a direct
store-level bulk UPDATE on the audit table goes through unhindered (no model
method runs, and `BaseAuditLog` declares no store-level constraint): it
rewrites the row and reports one affected row instead of erroring. -/
theorem c6_store_level_update_not_rejected :
    auditTableBulkUpdate [c6Row] (fun row => row.id == 1)
        (fun row => { row with operation_type := "forged" }) =
      ([{ c6Row with operation_type := "forged" }], 1) ∧
    ({ c6Row with operation_type := "forged" } : AuditRow) ≠ c6Row := by
  constructor
  · rfl
  · decide

/-- C6 as amended.  For every persisted `AuditRecord` (a row with
`_saved_in_db` set), re-saving it, hard-deleting it and soft-deleting it are
all rejected with `PermissionError` and no store state is produced, so the
table is unchanged — but the rejection lives in the model-method layer
(application logic), not in a store-level constraint. -/
theorem c6_model_layer_rejects_mutation :
    ∀ (table : List AuditRow) (row : AuditRow),
      row.saved_in_db = true →
      BaseAuditLog.save table row = .error .permissionError ∧
      BaseAuditLog.delete table row = .error .permissionError ∧
      BaseAuditLog.soft_delete table row = .error .permissionError := by
  intro table row h
  refine ⟨?_, rfl, rfl⟩
  unfold BaseAuditLog.save
  rw [h]
  rfl

/-- C6 witness: the amended theorem applied to the concrete persisted row. -/
theorem c6_model_layer_rejects_mutation_witness :
    c6Row.saved_in_db = true ∧
    BaseAuditLog.save [c6Row] c6Row = .error .permissionError :=
  ⟨rfl, (c6_model_layer_rejects_mutation [c6Row] c6Row rfl).1⟩

/-! ### Claim C3 -/

/-- C3.  A second grant can never slip through while a live grant of the same
pair exists: whenever the store already holds an active, non-soft-deleted
`RolePermission` row for (role, permission) whose window is current or still
in the future (its `effective_to` has not passed), `RolePermission.grant`
fails — through the explicit duplicate check (`ValueError`, surfaced as a
conflict) or through the `unique_together ("role", "permission", "is_active")`
store constraint (`IntegrityError`) — and, returning an error, creates no row.
Likewise `UserRole.grant_role` for an assigned, non-deleted, unexpired
(user, role) row.  The tenant of a `RolePermission` edge is determined by the
pair itself (the table has no tenant column). -/
theorem c3_duplicate_grant_conflicts :
    (∀ (store : Store) (rid pid : Nat) (f t : Option Int)
       (reason : Option String) (now : Int) (nid : Nat) (e : RolePermission),
       e ∈ store.rolePermissions → e.role_id = rid → e.permission_id = pid →
       e.is_active = true → e.is_deleted = false →
       (∀ te, e.effective_to = some te → now < te) →
       ∃ err, RolePermission.grant store rid pid f t reason now nid = .error err) ∧
    (∀ (store : Store) (uid rid : Nat) (din : Option Int) (now : Int)
       (nid : Nat) (e : UserRole),
       e ∈ store.userRoles → e.user_id = uid → e.role_id = rid →
       e.is_assigned = true → e.is_deleted = false →
       (∀ te, e.expires_at = some te → now < te) →
       ∃ err, UserRole.grant_role store uid rid din now nid = .error err) := by
  constructor
  · intro store rid pid f t reason now nid e he h1 h2 h3 h4 h5
    unfold RolePermission.grant
    by_cases hex : (store.rolePermissions.find?
        (rpGrantExistingFilter rid pid now)).isSome = true
    · exact ⟨.valueError, by rw [if_pos hex]⟩
    · rw [if_neg hex]
      cases hv : RolePermission.validate
          { id := nid, role_id := rid, permission_id := pid,
            granted_at := now, is_active := true, revoked_at := none,
            revoked_by_id := none, effective_from := f,
            effective_to := t, reason := reason, is_deleted := false } with
      | error e' => exact ⟨e', by simp only [hv]⟩
      | ok _ =>
        refine ⟨.integrityError, ?_⟩
        simp only [hv]
        have hany : store.rolePermissions.any (fun x =>
            x.role_id == rid && x.permission_id == pid &&
            x.is_active == true) = true := by
          rw [List.any_eq_true]
          exact ⟨e, he, by simp [h1, h2, h3]⟩
        rw [if_pos hany]
  · intro store uid rid din now nid e he h1 h2 h3 h4 h5
    unfold UserRole.grant_role
    cases hu : store.users.find? (fun u => u.id == uid && !u.is_deleted) with
    | none => exact ⟨.valueError, rfl⟩
    | some u0 =>
      cases hr : store.roles.find? (fun r =>
          r.id == rid && !r.is_deleted && r.is_enabled) with
      | none => exact ⟨.valueError, rfl⟩
      | some role0 =>
        dsimp only
        by_cases htn : (!(userTenantIds store uid).contains role0.tenant_id) = true
        · exact ⟨.valueError, by rw [if_pos htn]⟩
        · rw [if_neg htn]
          have hfind : ∃ ex, store.userRoles.find?
              (urGrantExistingFilter uid rid now) = some ex := by
            rw [← Option.isSome_iff_exists, List.find?_isSome]
            refine ⟨e, he, ?_⟩
            unfold urGrantExistingFilter
            simp [h1, h2, h3, h4]
            cases hh : e.expires_at with
            | none => rfl
            | some te => simpa using h5 te hh
          obtain ⟨ex, hex⟩ := hfind
          have hfil := List.find?_some hex
          unfold urGrantExistingFilter at hfil
          simp only [Bool.and_eq_true, beq_iff_eq, Bool.not_eq_true'] at hfil
          obtain ⟨⟨⟨⟨hxu, hxr⟩, hxa⟩, hxd⟩, hxe⟩ := hfil
          have hvalid : ex.is_valid now = true := by
            unfold UserRole.is_valid UserRole.is_expired
            rw [hxa, hxd]
            cases hcase : ex.expires_at with
            | none => rfl
            | some te =>
              have := hxe
              rw [hcase] at this
              simp only [Option.all_some, decide_eq_true_eq] at this
              simp [this]
          have hcond : (store.userRoles.find?
              (urGrantExistingFilter uid rid now)).any
              (fun x => x.is_valid now) = true := by
            rw [hex]
            simpa using hvalid
          exact ⟨.valueError, by rw [if_pos hcond]⟩

/-- Live role-permission grant of the C3 witness store, window [1, 10). -/
def c3RP : RolePermission :=
  { id := 1, role_id := 1, permission_id := 2, granted_at := 0,
    is_active := true, revoked_at := none, revoked_by_id := none,
    effective_from := some 1, effective_to := some 10, reason := none,
    is_deleted := false }

/-- Live user-role assignment of the C3 witness store. -/
def c3UR : UserRole :=
  { id := 1, user_id := 1, role_id := 1, tenant_id := 1,
    is_assigned := true, expires_at := some 10, is_deleted := false }

/-- Store for the C3 witness: one live role-permission grant and one live
user-role assignment. -/
def c3Store : Store :=
  { tenants := [{ id := 1, is_enabled := true, is_deleted := false }],
    users := [{ id := 1, is_deleted := false }],
    roles := [{ id := 1, code := "EDITOR", tenant_id := 1, is_system := false,
                is_default := false, is_enabled := true, level := 10,
                parent_id := none, is_deleted := false }],
    rolePermissions := [c3RP],
    userRoles := [c3UR],
    tenantUsers := [] }

/-- C3 witness: both granting operations are applied at a concrete store that
already holds a live grant of the pair, and both fail. -/
theorem c3_duplicate_grant_conflicts_witness :
    (∃ err, RolePermission.grant c3Store 1 2 none none none 5 99 = .error err) ∧
    (∃ err, UserRole.grant_role c3Store 1 1 none 5 99 = .error err) := by
  constructor
  · exact c3_duplicate_grant_conflicts.1 c3Store 1 2 none none none 5 99 c3RP
      (by decide) rfl rfl rfl rfl
      (by intro te hte
          simp only [c3RP, Option.some.injEq] at hte
          subst hte
          decide)
  · exact c3_duplicate_grant_conflicts.2 c3Store 1 1 none 5 99 c3UR
      (by decide) rfl rfl rfl rfl
      (by intro te hte
          simp only [c3UR, Option.some.injEq] at hte
          subst hte
          decide)

/-! ### Claim C4 -/

/-- Iterated ancestor lookup, the sequence of roles the cycle walk of
`Role.validate` visits: position 0 is the walk's starting role, each further
position follows `nextParent`. -/
def parentChainAt (store : Store) (tid : Nat) : Option Role → Nat → Option Role
  | cur, 0 => cur
  | cur, k + 1 => parentChainAt store tid (cur.bind (nextParent store tid)) k

/-- A chain that has already died stays dead. -/
theorem parentChainAt_none (store : Store) (tid : Nat) :
    ∀ k, parentChainAt store tid none k = none := by
  intro k
  induction k with
  | zero => rfl
  | succ n ih => simpa [parentChainAt] using ih

/-- If the ancestor chain reaches, within the remaining fuel, a role whose id
was already visited, the bounded walk reports an error. -/
theorem inheritWalk_error_of_revisit (store : Store) (tid : Nat) :
    ∀ (k fuel : Nat) (visited : List Nat) (cur : Option Role) (q : Role),
      k < fuel →
      parentChainAt store tid cur k = some q →
      q.id ∈ visited →
      ∃ e, inheritWalk store tid fuel visited cur = .error e := by
  intro k
  induction k with
  | zero =>
    intro fuel visited cur q hk hchain hmem
    match fuel, hk with
    | fuel + 1, _ =>
      simp only [parentChainAt] at hchain
      subst hchain
      unfold inheritWalk
      exact ⟨.valueError, by rw [if_pos hmem]⟩
  | succ k ih =>
    intro fuel visited cur q hk hchain hmem
    match fuel, hk with
    | fuel + 1, hk =>
      cases cur with
      | none => rw [parentChainAt_none] at hchain; cases hchain
      | some c =>
        unfold inheritWalk
        by_cases hc : c.id ∈ visited
        · exact ⟨.valueError, by rw [if_pos hc]⟩
        · rw [if_neg hc]
          refine ih fuel (c.id :: visited) (nextParent store tid c) q
            (by omega) ?_ (List.mem_cons_of_mem _ hmem)
          simpa [parentChainAt] using hchain

/-- An erroring `validate` makes `save` error and persist nothing. -/
theorem save_error_of_validate (store : Store) (r : Role)
    (h : ∃ e, Role.validate store r = .error e) :
    ∃ e, Role.save store r = .error e := by
  obtain ⟨e, he⟩ := h
  exact ⟨e, by unfold Role.save; rw [he]⟩

/-- C4.  Setting a role's parent is validated before anything is persisted,
and `Role.save` rejects — returning an error and leaving the store exactly as
it was — whenever (a) the new parent is the role itself, (b) every role row
carrying the parent id belongs to a different tenant (the same-tenant lookup
then fails), or (c) the bounded ancestor walk (hard cap 20 hops) re-encounters
the current role within the cap.  Since `save` only produces a store on
success, the pre-existing parent chain is untouched by every rejection. -/
theorem c4_parent_assignment_validation :
    (∀ (store : Store) (r : Role),
       ∃ e, Role.save store { r with parent_id := some r.id } = .error e) ∧
    (∀ (store : Store) (r : Role) (p : Nat),
       (∀ q ∈ store.roles, q.id = p → q.tenant_id ≠ r.tenant_id) →
       ∃ e, Role.save store { r with parent_id := some p } = .error e) ∧
    (∀ (store : Store) (r : Role) (p k : Nat) (q : Role),
       k < 20 →
       parentChainAt store r.tenant_id (findParentRole store r.tenant_id p) k =
         some q →
       q.id = r.id →
       ∃ e, Role.save store { r with parent_id := some p } = .error e) := by
  refine ⟨?_, ?_, ?_⟩
  · intro store r
    apply save_error_of_validate
    unfold Role.validate
    cases ht : store.tenants.find? (fun t =>
        t.id == r.tenant_id && !t.is_deleted && t.is_enabled) with
    | none => exact ⟨.valueError, rfl⟩
    | some _ =>
      dsimp only
      by_cases hcode : (!validRoleCode r.code) = true
      · exact ⟨.valueError, by rw [if_pos hcode]⟩
      · rw [if_neg hcode]
        cases hp : findParentRole store r.tenant_id r.id with
        | none => exact ⟨.valueError, by simp only [hp]⟩
        | some parent =>
          have hid : parent.id = r.id := by
            have := List.find?_some hp
            simp only [Bool.and_eq_true, beq_iff_eq] at this
            exact this.1.1
          refine ⟨.valueError, ?_⟩
          simp only [hp]
          rw [if_pos (by simpa using hid)]
  · intro store r p hdiff
    apply save_error_of_validate
    unfold Role.validate
    cases ht : store.tenants.find? (fun t =>
        t.id == r.tenant_id && !t.is_deleted && t.is_enabled) with
    | none => exact ⟨.valueError, rfl⟩
    | some _ =>
      dsimp only
      by_cases hcode : (!validRoleCode r.code) = true
      · exact ⟨.valueError, by rw [if_pos hcode]⟩
      · rw [if_neg hcode]
        have hp : findParentRole store r.tenant_id p = none := by
          unfold findParentRole
          rw [List.find?_eq_none]
          intro q hq
          simp only [Bool.and_eq_true, beq_iff_eq, Bool.not_eq_true']
          rintro ⟨⟨h1, h2⟩, -⟩
          exact hdiff q hq h1 h2
        exact ⟨.valueError, by simp only [hp]⟩
  · intro store r p k q hk hchain hq
    apply save_error_of_validate
    unfold Role.validate
    cases ht : store.tenants.find? (fun t =>
        t.id == r.tenant_id && !t.is_deleted && t.is_enabled) with
    | none => exact ⟨.valueError, rfl⟩
    | some _ =>
      dsimp only
      by_cases hcode : (!validRoleCode r.code) = true
      · exact ⟨.valueError, by rw [if_pos hcode]⟩
      · rw [if_neg hcode]
        cases hp : findParentRole store r.tenant_id p with
        | none =>
          rw [hp, parentChainAt_none] at hchain
          cases hchain
        | some parent =>
          dsimp only
          by_cases hself : (parent.id == r.id) = true
          · exact ⟨.valueError, by rw [if_pos hself]⟩
          · rw [if_neg hself]
            have htid : parent.tenant_id = r.tenant_id := by
              have := List.find?_some hp
              simp only [findParentRole, Bool.and_eq_true, beq_iff_eq] at this
              exact this.1.2
            rw [if_neg (by simp [htid])]
            have hwalk : ∃ e,
                inheritWalk store r.tenant_id 20 [r.id] (some parent) =
                  .error e := by
              refine inheritWalk_error_of_revisit store r.tenant_id k 20 [r.id]
                (some parent) q hk ?_ (by simp [hq])
              rw [hp] at hchain
              exact hchain
            obtain ⟨e, he⟩ := hwalk
            exact ⟨e, by rw [he]⟩

/-- Roles of the C4 witness store: R1 and R2 in tenant 1 form a two-step
parent loop once R1's parent is set to R2. -/
def c4R1 : Role :=
  { id := 1, code := "EDITOR", tenant_id := 1, is_system := false,
    is_default := false, is_enabled := true, level := 10,
    parent_id := some 2, is_deleted := false }

/-- Second role of the C4 witness store, already pointing back at R1. -/
def c4R2 : Role :=
  { id := 2, code := "AUTHOR", tenant_id := 1, is_system := false,
    is_default := false, is_enabled := true, level := 5,
    parent_id := some 1, is_deleted := false }

/-- Role living in tenant 2, used for the cross-tenant rejection. -/
def c4R3 : Role :=
  { id := 3, code := "OTHER", tenant_id := 2, is_system := false,
    is_default := false, is_enabled := true, level := 0,
    parent_id := none, is_deleted := false }

/-- C4 witness store. -/
def c4Store : Store :=
  { tenants := [{ id := 1, is_enabled := true, is_deleted := false },
                { id := 2, is_enabled := true, is_deleted := false }],
    users := [], roles := [c4R1, c4R2, c4R3],
    rolePermissions := [], userRoles := [], tenantUsers := [] }

/-- C4 witness: at the concrete store, making R1 its own parent, giving R1 the
cross-tenant parent R3, and closing the R1→R2→R1 loop are all rejected. -/
theorem c4_parent_assignment_validation_witness :
    (∃ e, Role.save c4Store { c4R1 with parent_id := some c4R1.id } = .error e) ∧
    (∃ e, Role.save c4Store { c4R1 with parent_id := some 3 } = .error e) ∧
    (∃ e, Role.save c4Store { c4R1 with parent_id := some 2 } = .error e) := by
  refine ⟨c4_parent_assignment_validation.1 c4Store c4R1,
          c4_parent_assignment_validation.2.1 c4Store c4R1 3 ?_,
          c4_parent_assignment_validation.2.2 c4Store c4R1 2 1 c4R1 (by decide)
            (by decide) rfl⟩
  intro q hq h1
  fin_cases hq <;> simp_all [c4R1, c4R2, c4R3]

/-! ### Claim C7 -/

/-- Soft-deleted yet still `is_active` expired row used against C7. -/
def c7DeletedRow : RolePermission :=
  { id := 3, role_id := 1, permission_id := 1, granted_at := 0,
    is_active := true, revoked_at := none, revoked_by_id := none,
    effective_from := none, effective_to := some 5, reason := none,
    is_deleted := true }

/-- Store of the C7 counterexample. -/
def c7DeletedStore : Store :=
  { tenants := [], users := [], roles := [], rolePermissions := [c7DeletedRow],
    userRoles := [], tenantUsers := [] }

/-- C7 counterexample: the claim says the sweep transitions exactly the
active, *non-soft-deleted* grants with `effective_to ≤ B` and returns their
count, but `RolePermission.cleanup_expired` runs over a bare `cls.filter`
with no soft-deletion conjunct: on a store whose only expired-but-active row
is soft-deleted it still flips that row and returns 1, where the claim
demands count 0 and no modification. -/
theorem c7_sweep_flips_softdeleted_row :
    RolePermission.cleanup_expired c7DeletedStore 10 7 =
      ({ c7DeletedStore with rolePermissions :=
          [{ c7DeletedRow with is_active := false, revoked_at := some 7,
                               reason := some "自动清理：权限已过期" }] }, 1) ∧
    c7DeletedRow.is_deleted = true := by
  exact ⟨rfl, rfl⟩

/-- The `RolePermission` sweep filter, declaratively. -/
theorem rpExpiredFilter_iff (before : Int) (rp : RolePermission) :
    rpExpiredFilter before rp = true ↔
      (∃ te, rp.effective_to = some te ∧ te ≤ before) ∧
        rp.is_active = true ∧ rp.revoked_at = none := by
  unfold rpExpiredFilter
  rcases rp with ⟨_, _, _, _, a, r, _, _, e, _, _⟩
  rcases a <;> rcases r <;> rcases e <;> simp +decide [Option.any]

/-- The `UserRole` sweep filter (no tenant filter), declaratively. -/
theorem urExpiredFilter_iff (before : Int) (ur : UserRole) :
    urExpiredFilter none before ur = true ↔
      (∃ te, ur.expires_at = some te ∧ te ≤ before) ∧
        ur.is_assigned = true ∧ ur.is_deleted = false := by
  unfold urExpiredFilter
  rcases ur with ⟨_, _, _, _, a, e, d⟩
  rcases a <;> rcases d <;> rcases e <;> simp +decide [Option.any, Option.all]

/-- C7 as amended.  Both sweeps flip, row by row, exactly the rows that are
still flagged live and whose non-null expiry bound has passed `before`; rows
with a null bound, already-inactive rows (and, for `UserRole` only,
soft-deleted rows) are returned untouched — the `RolePermission` sweep, per
the counterexample, does not spare soft-deleted rows.  Re-running either
sweep with the same bound on its own output changes no row and reports 0, so
the d1/d10 round trip flips its grant exactly once. -/
theorem c7_sweep_characterisation :
    ∀ (store : Store) (before now now2 : Int),
      List.Forall₂ (fun old new =>
          ((∃ te, old.effective_to = some te ∧ te ≤ before) ∧
             old.is_active = true ∧ old.revoked_at = none →
           new = { old with is_active := false, revoked_at := some now,
                            reason := some "自动清理：权限已过期" }) ∧
          (old.effective_to = none ∨ old.is_active = false ∨
             old.revoked_at ≠ none ∨
             (∀ te, old.effective_to = some te → before < te) →
           new = old))
        store.rolePermissions
        (RolePermission.cleanup_expired store before now).1.rolePermissions ∧
      RolePermission.cleanup_expired
          (RolePermission.cleanup_expired store before now).1 before now2 =
        ((RolePermission.cleanup_expired store before now).1, 0) ∧
      List.Forall₂ (fun old new =>
          ((∃ te, old.expires_at = some te ∧ te ≤ before) ∧
             old.is_assigned = true ∧ old.is_deleted = false →
           new = { old with is_assigned := false }) ∧
          (old.expires_at = none ∨ old.is_assigned = false ∨
             old.is_deleted = true ∨
             (∀ te, old.expires_at = some te → before < te) →
           new = old))
        store.userRoles
        (UserRole.cleanup_expired store before none).1.userRoles ∧
      UserRole.cleanup_expired (UserRole.cleanup_expired store before none).1
          before none =
        ((UserRole.cleanup_expired store before none).1, 0) := by
  intro store before now now2
  refine ⟨?_, ?_, ?_, ?_⟩
  · unfold RolePermission.cleanup_expired
    rw [List.forall₂_map_right_iff, List.forall₂_same]
    intro x hx
    by_cases hf : rpExpiredFilter before x = true
    · refine ⟨fun _ => by rw [if_pos hf], fun hdisj => ?_⟩
      obtain ⟨⟨te, hte, hle⟩, ha, hr⟩ := (rpExpiredFilter_iff before x).mp hf
      rcases hdisj with h | h | h | h
      · rw [h] at hte; cases hte
      · rw [ha] at h; cases h
      · exact absurd hr h
      · exact absurd (h te hte) (by omega)
    · refine ⟨fun hpos => ?_, fun _ => by rw [if_neg hf]⟩
      exact absurd ((rpExpiredFilter_iff before x).mpr
        ⟨hpos.1, hpos.2.1, hpos.2.2⟩) hf
  · unfold RolePermission.cleanup_expired
    have hall : ∀ y ∈ store.rolePermissions.map (fun rp =>
        if rpExpiredFilter before rp then
          { rp with is_active := false, revoked_at := some now,
                    reason := some "自动清理：权限已过期" }
        else rp), rpExpiredFilter before y = false := by
      intro y hy
      obtain ⟨x, _, hxy⟩ := List.mem_map.mp hy
      by_cases hf : rpExpiredFilter before x = true
      · rw [if_pos hf] at hxy
        rw [← hxy]
        unfold rpExpiredFilter
        rfl
      · rw [if_neg hf] at hxy
        rw [← hxy]
        exact Bool.not_eq_true _ ▸ hf
    dsimp only
    have hmap : (store.rolePermissions.map (fun rp =>
        if rpExpiredFilter before rp then
          { rp with is_active := false, revoked_at := some now,
                    reason := some "自动清理：权限已过期" }
        else rp)).map (fun rp =>
        if rpExpiredFilter before rp then
          { rp with is_active := false, revoked_at := some now2,
                    reason := some "自动清理：权限已过期" }
        else rp) = store.rolePermissions.map (fun rp =>
        if rpExpiredFilter before rp then
          { rp with is_active := false, revoked_at := some now,
                    reason := some "自动清理：权限已过期" }
        else rp) := by
      have := List.map_congr_left (l := store.rolePermissions.map (fun rp =>
        if rpExpiredFilter before rp then
          { rp with is_active := false, revoked_at := some now,
                    reason := some "自动清理：权限已过期" }
        else rp)) (f := fun rp =>
        if rpExpiredFilter before rp then
          { rp with is_active := false, revoked_at := some now2,
                    reason := some "自动清理：权限已过期" }
        else rp) (g := id)
        (fun a ha => by dsimp only [id]; rw [if_neg (by simp [hall a ha])])
      rw [this, List.map_id]
    have hcount : (store.rolePermissions.map (fun rp =>
        if rpExpiredFilter before rp then
          { rp with is_active := false, revoked_at := some now,
                    reason := some "自动清理：权限已过期" }
        else rp)).countP (rpExpiredFilter before) = 0 := by
      rw [List.countP_eq_zero]
      intro a ha
      rw [hall a ha]
      simp
    rw [hmap, hcount]
  · unfold UserRole.cleanup_expired
    rw [List.forall₂_map_right_iff, List.forall₂_same]
    intro x hx
    by_cases hf : urExpiredFilter none before x = true
    · refine ⟨fun _ => by rw [if_pos hf], fun hdisj => ?_⟩
      obtain ⟨⟨te, hte, hle⟩, ha, hd⟩ := (urExpiredFilter_iff before x).mp hf
      rcases hdisj with h | h | h | h
      · rw [h] at hte; cases hte
      · rw [ha] at h; cases h
      · rw [hd] at h; cases h
      · exact absurd (h te hte) (by omega)
    · refine ⟨fun hpos => ?_, fun _ => by rw [if_neg hf]⟩
      exact absurd ((urExpiredFilter_iff before x).mpr
        ⟨hpos.1, hpos.2.1, hpos.2.2⟩) hf
  · unfold UserRole.cleanup_expired
    have hall : ∀ y ∈ store.userRoles.map (fun ur =>
        if urExpiredFilter none before ur then { ur with is_assigned := false }
        else ur), urExpiredFilter none before y = false := by
      intro y hy
      obtain ⟨x, _, hxy⟩ := List.mem_map.mp hy
      by_cases hf : urExpiredFilter none before x = true
      · rw [if_pos hf] at hxy
        rw [← hxy]
        unfold urExpiredFilter
        rfl
      · rw [if_neg hf] at hxy
        rw [← hxy]
        exact Bool.not_eq_true _ ▸ hf
    dsimp only
    have hmap : (store.userRoles.map (fun ur =>
        if urExpiredFilter none before ur then { ur with is_assigned := false }
        else ur)).map (fun ur =>
        if urExpiredFilter none before ur then { ur with is_assigned := false }
        else ur) = store.userRoles.map (fun ur =>
        if urExpiredFilter none before ur then { ur with is_assigned := false }
        else ur) := by
      have := List.map_congr_left (l := store.userRoles.map (fun ur =>
        if urExpiredFilter none before ur then { ur with is_assigned := false }
        else ur)) (f := fun ur =>
        if urExpiredFilter none before ur then { ur with is_assigned := false }
        else ur) (g := id)
        (fun a ha => by dsimp only [id]; rw [if_neg (by simp [hall a ha])])
      rw [this, List.map_id]
    have hcount : (store.userRoles.map (fun ur =>
        if urExpiredFilter none before ur then { ur with is_assigned := false }
        else ur)).countP (urExpiredFilter none before) = 0 := by
      rw [List.countP_eq_zero]
      intro a ha
      rw [hall a ha]
      simp
    rw [hmap, hcount]

/-- Grant of the d1/d10 round-trip scenario, window [1, 10). -/
def c7GrantRow : RolePermission :=
  { id := 1, role_id := 1, permission_id := 1, granted_at := 0,
    is_active := true, revoked_at := none, revoked_by_id := none,
    effective_from := some 1, effective_to := some 10, reason := none,
    is_deleted := false }

/-- Store of the round-trip scenario. -/
def c7RoundStore : Store :=
  { tenants := [], users := [], roles := [], rolePermissions := [c7GrantRow],
    userRoles := [], tenantUsers := [] }

/-- C7 witness: the d1/d10 grant is effective at d5 and no longer at d11; a
sweep with `before = 11` flips it exactly once (count 1) and — by the
characterisation theorem applied at this store — a second identical sweep
returns the store unchanged with count 0. -/
theorem c7_sweep_characterisation_witness :
    c7GrantRow.is_effective 5 = true ∧
    c7GrantRow.is_effective 11 = false ∧
    RolePermission.cleanup_expired c7RoundStore 11 20 =
      ({ c7RoundStore with rolePermissions :=
          [{ c7GrantRow with is_active := false, revoked_at := some 20,
                             reason := some "自动清理：权限已过期" }] }, 1) ∧
    RolePermission.cleanup_expired
        (RolePermission.cleanup_expired c7RoundStore 11 20).1 11 21 =
      ((RolePermission.cleanup_expired c7RoundStore 11 20).1, 0) :=
  ⟨rfl, rfl, rfl, (c7_sweep_characterisation c7RoundStore 11 20 21).2.1⟩

/-! ### Claim C8 -/

/-- The rows the single-primary invariant counts: non-deleted rows of user `w`
flagged primary. -/
def tuPrimaryOf (w : Nat) (tu : TenantUser) : Bool :=
  tu.user_id == w && !tu.is_deleted && tu.is_primary

/-- In a list with pairwise-distinct keys, exactly one element carries the key
of a member. -/
theorem countP_key_eq_one {α : Type} (f : α → Nat) :
    ∀ (l : List α) (a : α), (l.map f).Nodup → a ∈ l →
      l.countP (fun x => f x == f a) = 1 := by
  intro l
  induction l with
  | nil => intro a _ ha; cases ha
  | cons y ys ih =>
    intro a hnd ha
    rw [List.map_cons, List.nodup_cons] at hnd
    obtain ⟨hy, hnd2⟩ := hnd
    rcases List.mem_cons.mp ha with rfl | ha2
    · rw [List.countP_cons_of_pos _ _ (by simp)]
      have hz : ys.countP (fun x => f x == f a) = 0 := by
        rw [List.countP_eq_zero]
        intro x hx
        simp only [beq_iff_eq]
        intro heq
        exact hy (heq ▸ List.mem_map_of_mem f hx)
      rw [hz]
    · have hfy : ¬(f y = f a) := by
        intro heq
        exact hy (heq ▸ List.mem_map_of_mem f ha2)
      rw [List.countP_cons_of_neg _ _ (by simp [hfy])]
      exact ih a hnd2 ha2

/-- After marking the row with id `target` primary and clearing every other
primary row of user `u`, the rows counting towards `u`'s single-primary
invariant are exactly the rows with id `target`. -/
theorem primary_after_mark_clear (l : List TenantUser) (u target : Nat)
    (tu0 : TenantUser) (hid : (l.map (·.id)).Nodup) (h0 : tu0 ∈ l)
    (hidt : tu0.id = target) (hu : tu0.user_id = u)
    (hd : tu0.is_deleted = false) :
    ((l.map (tuMarkPrimary target)).map
        (tuClearOtherPrimary u target)).countP (tuPrimaryOf u) = 1 := by
  rw [List.map_map, List.countP_map]
  have hcongr : ∀ x ∈ l,
      ((tuPrimaryOf u ∘ tuClearOtherPrimary u target ∘ tuMarkPrimary target) x
        = true) ↔ ((fun x : TenantUser => x.id == target) x = true) := by
    intro x hx
    simp only [Function.comp_apply]
    by_cases hxt : (x.id == target) = true
    · have hx0 : x = tu0 :=
        List.inj_on_of_nodup_map hid hx h0
          (by rw [beq_iff_eq] at hxt; rw [hxt, hidt])
      subst hx0
      simp [tuMarkPrimary, tuClearOtherPrimary, tuPrimaryOf, hxt, hu, hd]
    · have hxt2 : (x.id == target) = false := by simpa using hxt
      rw [show tuMarkPrimary target x = x from by
        unfold tuMarkPrimary; rw [if_neg hxt]]
      unfold tuClearOtherPrimary
      by_cases hcl : (x.user_id == u && x.is_primary && !x.is_deleted &&
          !(x.id == target)) = true
      · rw [if_pos hcl]
        simp [tuPrimaryOf, hxt2]
      · rw [if_neg hcl]
        rw [hxt2]
        simp only [Bool.false_eq_true, iff_false]
        intro hpx
        apply hcl
        unfold tuPrimaryOf at hpx
        simp only [Bool.and_eq_true, Bool.not_eq_true'] at hpx
        obtain ⟨⟨hpu, hpd⟩, hpp⟩ := hpx
        simp [hpu, hpd, hpp, hxt2]
  rw [List.countP_congr hcongr]
  have hone := countP_key_eq_one (fun tu : TenantUser => tu.id) l tu0 hid h0
  simpa [hidt] using hone

/-- Marking the row with id `target` (a row of user `u`) and clearing can only
lower any other user's primary count. -/
theorem primary_other_user_le (l : List TenantUser) (u target w : Nat)
    (hw : w ≠ u) (htgt : ∀ x ∈ l, x.id = target → x.user_id = u) :
    ((l.map (tuMarkPrimary target)).map
        (tuClearOtherPrimary u target)).countP (tuPrimaryOf w) ≤
      l.countP (tuPrimaryOf w) := by
  rw [List.map_map, List.countP_map]
  apply List.countP_mono_left
  intro x hx hpx
  simp only [Function.comp_apply] at hpx
  have huser : ∀ y : TenantUser,
      (tuClearOtherPrimary u target (tuMarkPrimary target y)).user_id =
        y.user_id := by
    intro y
    unfold tuMarkPrimary tuClearOtherPrimary
    split <;> split <;> rfl
  have hxw : x.user_id = w := by
    have h1 : (tuClearOtherPrimary u target
        (tuMarkPrimary target x)).user_id = w := by
      unfold tuPrimaryOf at hpx
      simp only [Bool.and_eq_true, beq_iff_eq] at hpx
      exact hpx.1.1
    rw [huser x] at h1
    exact h1
  have hxt : ¬(x.id == target) = true := by
    intro hbeq
    rw [beq_iff_eq] at hbeq
    exact hw (hxw.symm.trans (htgt x hx hbeq))
  rw [show tuMarkPrimary target x = x from by
        unfold tuMarkPrimary; rw [if_neg hxt]] at hpx
  unfold tuClearOtherPrimary at hpx
  by_cases hcl : (x.user_id == u && x.is_primary && !x.is_deleted &&
      !(x.id == target)) = true
  · rw [if_pos hcl] at hpx
    simp [tuPrimaryOf] at hpx
  · rw [if_neg hcl] at hpx
    exact hpx

/-- C8.  When `grant_user` with `is_primary = true` completes on a store with
distinct row ids and a fresh new id, the user ends with exactly one primary
membership among their non-deleted rows — the previous primary rows are
cleared in the same atomic operation — and every other user's single-primary
invariant is preserved. -/
theorem c8_single_primary_invariant :
    ∀ (store : Store) (t u nid : Nat) (s1 : Store) (rid : Nat),
      (store.tenantUsers.map (·.id)).Nodup →
      (∀ tu ∈ store.tenantUsers, tu.id ≠ nid) →
      TenantUser.grant_user store t u true none nid = .ok (s1, rid) →
      s1.tenantUsers.countP (tuPrimaryOf u) = 1 ∧
      (∀ w, w ≠ u → store.tenantUsers.countP (tuPrimaryOf w) ≤ 1 →
        s1.tenantUsers.countP (tuPrimaryOf w) ≤ 1) := by
  intro store t u nid s1 rid hid hnew hok
  unfold TenantUser.grant_user at hok
  cases h1 : store.tenants.find? (fun x => x.id == t && !x.is_deleted) with
  | none => rw [h1] at hok; simp at hok
  | some x1 =>
  rw [h1] at hok
  cases h2 : store.users.find? (fun x => x.id == u && !x.is_deleted) with
  | none => rw [h2] at hok; simp at hok
  | some x2 =>
  rw [h2] at hok
  dsimp only at hok
  by_cases h3 : 2 ≤ store.tenantUsers.countP (tuGetOrCreateFilter t u)
  · rw [if_pos h3] at hok
    simp at hok
  · rw [if_neg h3] at hok
    cases hfound : store.tenantUsers.find? (tuGetOrCreateFilter t u) with
    | some tu0 =>
      rw [hfound] at hok
      dsimp only at hok
      simp only [Except.ok.injEq, Prod.mk.injEq] at hok
      obtain ⟨rfl, -⟩ := hok
      have hmem : tu0 ∈ store.tenantUsers :=
        List.mem_of_find?_eq_some hfound
      have hpred := List.find?_some hfound
      unfold tuGetOrCreateFilter at hpred
      simp only [Bool.and_eq_true, beq_iff_eq, Bool.not_eq_true'] at hpred
      obtain ⟨⟨-, hu0⟩, hd0⟩ := hpred
      constructor
      · exact primary_after_mark_clear store.tenantUsers u tu0.id tu0 hid
          hmem rfl hu0 hd0
      · intro w hw hwle
        exact le_trans
          (primary_other_user_le store.tenantUsers u tu0.id w hw
            (fun x hx hxid => by
              have hx0 : x = tu0 := List.inj_on_of_nodup_map hid hx hmem hxid
              rw [hx0, hu0]))
          hwle
    | none =>
      rw [hfound] at hok
      dsimp only at hok
      simp only [Except.ok.injEq, Prod.mk.injEq] at hok
      obtain ⟨rfl, -⟩ := hok
      set row : TenantUser :=
        { id := nid, tenant_id := t, user_id := u, is_primary := true,
          is_assigned := true, expired_at := none,
          is_deleted := false } with hrow
      have hid2 : ((store.tenantUsers ++ [row]).map (·.id)).Nodup := by
        rw [List.map_append, List.nodup_append]
        refine ⟨hid, by simp, ?_⟩
        intro a ha hb
        obtain ⟨x, hx, hxa⟩ := List.mem_map.mp ha
        simp only [List.map_cons, List.map_nil, List.mem_singleton] at hb
        rw [hb] at hxa
        exact hnew x hx hxa
      have hmem2 : row ∈ store.tenantUsers ++ [row] := by simp
      constructor
      · exact primary_after_mark_clear (store.tenantUsers ++ [row]) u nid
          row hid2 hmem2 rfl rfl rfl
      · intro w hw hwle
        refine le_trans
          (primary_other_user_le (store.tenantUsers ++ [row]) u nid w hw
            (fun x hx hxid => by
              rcases List.mem_append.mp hx with hx1 | hx1
              · exact absurd hxid (hnew x hx1)
              · rw [List.mem_singleton.mp hx1, hrow])) ?_
        rw [List.countP_append]
        have hzero : List.countP (tuPrimaryOf w) [row] = 0 := by
          simp [tuPrimaryOf, hrow]
          intro hcontra
          exact absurd hcontra.symm hw
        omega

/-- Store of the C8 witness: the user's current primary membership lives in
tenant 1; the new primary assignment targets tenant 2. -/
def c8Store : Store :=
  { tenants := [{ id := 1, is_enabled := true, is_deleted := false },
                { id := 2, is_enabled := true, is_deleted := false }],
    users := [{ id := 5, is_deleted := false }],
    roles := [], rolePermissions := [], userRoles := [],
    tenantUsers := [{ id := 1, tenant_id := 1, user_id := 5,
                      is_primary := true, is_assigned := true,
                      expired_at := none, is_deleted := false }] }

/-- C8 witness: assigning user 5 to tenant 2 as primary on the concrete store
leaves exactly one primary row for user 5. -/
theorem c8_single_primary_invariant_witness :
    ∃ s1 rid, TenantUser.grant_user c8Store 2 5 true none 9 = .ok (s1, rid) ∧
      s1.tenantUsers.countP (tuPrimaryOf 5) = 1 := by
  obtain ⟨s1, rid, hok⟩ : ∃ s1 rid,
      TenantUser.grant_user c8Store 2 5 true none 9 = .ok (s1, rid) :=
    ⟨_, _, rfl⟩
  exact ⟨s1, rid, hok,
    (c8_single_primary_invariant c8Store 2 5 9 s1 rid (by decide) (by decide)
      hok).1⟩

/-! ### Claim C10 -/

/-- Primary, assigned membership row used against C10. -/
def c10Row : TenantUser :=
  { id := 1, tenant_id := 1, user_id := 2, is_primary := true,
    is_assigned := true, expired_at := none, is_deleted := false }

/-- Store of the C10 counterexample. -/
def c10Store : Store :=
  { tenants := [], users := [], roles := [], rolePermissions := [],
    userRoles := [], tenantUsers := [c10Row] }

/-- C10 counterexample: the claim says `revoke_user` sets both
`is_assigned = false` and `is_primary = false`, but the bulk UPDATE only
writes `is_assigned`; on a row that is the user's primary membership the
operation returns true yet leaves `is_primary` set. -/
theorem c10_revoke_keeps_primary_flag :
    (TenantUser.revoke_user c10Store 1 2).2 = true ∧
    (TenantUser.revoke_user c10Store 1 2).1.tenantUsers =
      [{ c10Row with is_assigned := false }] ∧
    ({ c10Row with is_assigned := false } : TenantUser).is_primary = true := by
  exact ⟨rfl, rfl, rfl⟩

/-- C10 as amended.  `revoke_user` updates, in place, exactly the non-deleted
membership rows of the (tenant, user) pair, setting `is_assigned := false`
and changing nothing else — in particular `is_primary` is left as it was and
no row is removed — and returns true precisely when at least one such row
exists; when none exists the store is returned unchanged with false. -/
theorem c10_revoke_user_characterisation :
    ∀ (store : Store) (t u : Nat),
      List.Forall₂ (fun old new =>
          (old.tenant_id = t ∧ old.user_id = u ∧ old.is_deleted = false →
            new = { old with is_assigned := false }) ∧
          (¬(old.tenant_id = t ∧ old.user_id = u ∧ old.is_deleted = false) →
            new = old))
        store.tenantUsers (TenantUser.revoke_user store t u).1.tenantUsers ∧
      ((∃ tu ∈ store.tenantUsers,
          tu.tenant_id = t ∧ tu.user_id = u ∧ tu.is_deleted = false) →
        (TenantUser.revoke_user store t u).2 = true) ∧
      ((¬∃ tu ∈ store.tenantUsers,
          tu.tenant_id = t ∧ tu.user_id = u ∧ tu.is_deleted = false) →
        TenantUser.revoke_user store t u = (store, false)) := by
  intro store t u
  have hiff : ∀ tu : TenantUser, tuRevokeFilter t u tu = true ↔
      (tu.tenant_id = t ∧ tu.user_id = u ∧ tu.is_deleted = false) := by
    intro tu
    unfold tuRevokeFilter
    simp [and_assoc]
  refine ⟨?_, ?_, ?_⟩
  · unfold TenantUser.revoke_user
    rw [List.forall₂_map_right_iff, List.forall₂_same]
    intro x hx
    by_cases hf : tuRevokeFilter t u x = true
    · exact ⟨fun _ => by rw [if_pos hf],
        fun hneg => absurd ((hiff x).mp hf) hneg⟩
    · exact ⟨fun hpos => absurd ((hiff x).mpr hpos) hf,
        fun _ => by rw [if_neg hf]⟩
  · intro ⟨tu, htu, hprop⟩
    unfold TenantUser.revoke_user
    simp only [decide_eq_true_eq]
    rw [List.countP_pos_iff]
    exact ⟨tu, htu, (hiff tu).mpr hprop⟩
  · intro hnone
    have hzero : ∀ x ∈ store.tenantUsers, ¬tuRevokeFilter t u x = true := by
      intro x hx hfx
      exact hnone ⟨x, hx, (hiff x).mp hfx⟩
    unfold TenantUser.revoke_user
    have hmap : store.tenantUsers.map (fun tu =>
        if tuRevokeFilter t u tu then { tu with is_assigned := false }
        else tu) = store.tenantUsers := by
      have := List.map_congr_left (l := store.tenantUsers)
        (f := fun tu => if tuRevokeFilter t u tu then
          { tu with is_assigned := false } else tu) (g := id)
        (fun a ha => by dsimp only [id]; rw [if_neg (hzero a ha)])
      rw [this, List.map_id]
    have hcount : store.tenantUsers.countP (tuRevokeFilter t u) = 0 :=
      List.countP_eq_zero.mpr hzero
    rw [hmap, hcount]
    rfl

/-- C10 witness: the characterisation applied to the concrete store of the
counterexample — the row exists, so the call reports true. -/
theorem c10_revoke_user_characterisation_witness :
    (TenantUser.revoke_user c10Store 1 2).2 = true :=
  (c10_revoke_user_characterisation c10Store 1 2).2.1
    ⟨c10Row, by decide, rfl, rfl, rfl⟩

end Azer
